import Mathlib

/-
  Shallow embedding of the NotiBoost React SDK (src/src/index.tsx).

  The package is a thin state-management layer: a provider constructs one
  external client and wraps each client method with a uniform
  loading/error envelope (handleRequest); derived hooks (useNotiBoost,
  useEvent, useUser) re-expose those wrapped operations, the user hook
  adding a cached snapshot with refresh-after-write.

  Modelling choices:
  - JavaScript promises are modelled sequentially: a wrapped call takes the
    settled outcome of the underlying client call as an explicit
    `Except Thrown _` parameter and returns the new state together with the
    settled result of the wrapper (`Except NotiBoostError _`: `.error` is a
    rejected promise, `.ok` a resolved one).
  - React state setters become explicit state records threaded through the
    functions (`ProviderState` for the provider's shared loading/error slot,
    `UserHookState` for the user hook's user/loading/error).
  - A falsy JavaScript string (the `if (!userId) return` guards) is the
    empty string.
  - Underlying client invocations performed by the user hook are logged in a
    `ClientCall` list so that call counts are observable.
-/

namespace NotiBoost

/-- The normalized error kind of the SDK. `NotiBoostError` (from the external
browser SDK) carries a message and a numeric status code. -/
structure NotiBoostError where
  message : String
  code : Nat
deriving DecidableEq

/-- A JavaScript value thrown by a rejected underlying client call: either
already a `NotiBoostError`, another `Error` instance carrying a message, or a
non-`Error` value (whose payload the code never consults). -/
inductive Thrown where
  | nbError (e : NotiBoostError)
  | jsError (message : String)
  | nonError (payload : String)
deriving DecidableEq

/-- Normalization of a thrown value, as written identically at each catch
site of src/src/index.tsx:
`err instanceof NotiBoostError ? err : new NotiBoostError(err instanceof Error ? err.message : 'Unknown error', 0)`. -/
def toNotiBoostError : Thrown → NotiBoostError
  | .nbError e => e
  | .jsError m => ⟨m, 0⟩
  | .nonError _ => ⟨"Unknown error", 0⟩

/-- The provider's shared request state: `loading` and `error`
(src/src/index.tsx, the two useState slots of NotiBoostProvider). -/
structure ProviderState where
  loading : Bool
  error : Option NotiBoostError
deriving DecidableEq

/-- The provider state at the moment the underlying client call is invoked:
handleRequest runs `setLoading(true); setError(null)` before awaiting
`requestFn()`. -/
def requestPre (s : ProviderState) : ProviderState :=
  { s with loading := true, error := none }

/-- handleRequest (src/src/index.tsx lines 44-59): set loading true, clear
error, await the request; on success return the result; on failure normalize
the thrown value, store it and re-throw it; finally set loading false. -/
def handleRequest {α : Type} (s : ProviderState) (outcome : Except Thrown α) :
    ProviderState × Except NotiBoostError α :=
  match outcome with
  | .ok v => ({ requestPre s with loading := false }, .ok v)
  | .error t =>
    ({ requestPre s with error := some (toNotiBoostError t), loading := false },
      .error (toNotiBoostError t))

/-- The eight operations the provider exposes, each a useCallback wrapping one
underlying client method in handleRequest. -/
inductive ProviderOp where
  | ingestEvent
  | ingestEventBatch
  | createUser
  | getUser
  | updateUser
  | deleteUser
  | setChannelData
  | setPreferences
deriving DecidableEq

/-- Each provider operation is `handleRequest(() => client.<method>(args))`:
the eight wrappers are textually identical apart from the client method they
invoke, so each branch applies handleRequest to that method's outcome. -/
def runProviderOp {α : Type} (op : ProviderOp) (outcome : Except Thrown α)
    (s : ProviderState) : ProviderState × Except NotiBoostError α :=
  match op with
  | .ingestEvent => handleRequest s outcome
  | .ingestEventBatch => handleRequest s outcome
  | .createUser => handleRequest s outcome
  | .getUser => handleRequest s outcome
  | .updateUser => handleRequest s outcome
  | .deleteUser => handleRequest s outcome
  | .setChannelData => handleRequest s outcome
  | .setPreferences => handleRequest s outcome

/-- Configuration object passed to the external client constructor. -/
structure NotiBoostConfig where
  apiKey : String
  baseURL : Option String
  timeout : Option Nat
  retries : Option Nat
deriving DecidableEq

/-- The external client, opaque to this layer; the model records only the
configuration its constructor received. -/
structure NotiBoostClient where
  config : NotiBoostConfig
deriving DecidableEq

/-- Props of NotiBoostProvider. -/
structure NotiBoostProviderProps where
  apiKey : String
  baseURL : Option String
  timeout : Option Nat
  retries : Option Nat
deriving DecidableEq

/-- `new NotiBoostClient({ apiKey, baseURL, timeout, retries })`
(src/src/index.tsx lines 35-40): the four props are forwarded unchanged. -/
def makeClient (p : NotiBoostProviderProps) : NotiBoostClient :=
  ⟨{ apiKey := p.apiKey, baseURL := p.baseURL, timeout := p.timeout,
     retries := p.retries }⟩

/-- React useState with a lazy initializer, per React's documented contract:
the initializer runs only on the render that creates the state slot; later
renders return the stored value. Returns the value, the slot after the
render, and whether the initializer ran. -/
def useStateLazy {α : Type} (mkInit : Unit → α) : Option α → α × Option α × Bool
  | some v => (v, some v, false)
  | none => (mkInit (), some (mkInit ()), true)

/-- Render the mounted provider `n` times starting from a state slot,
collecting the client instance each render sees and counting how many times
the client constructor ran. -/
def renderClients (p : NotiBoostProviderProps) :
    Nat → Option NotiBoostClient → List NotiBoostClient × Nat
  | 0, _ => ([], 0)
  | n + 1, slot =>
    let r := useStateLazy (fun _ => makeClient p) slot
    let rest := renderClients p n r.2.1
    (r.1 :: rest.1, (if r.2.2 then 1 else 0) + rest.2)

/-- A user record, as returned by the external client's user fetch. The
fields stand for the record's contents; the hook never inspects them. -/
structure User where
  id : String
  name : String
  email : String
deriving DecidableEq

/-- An untyped client response (the wrapped methods return Promise of any). -/
structure Value where
  payload : String
deriving DecidableEq

/-- A partial user record passed to update. -/
structure UserPatch where
  fields : List (String × String)
deriving DecidableEq

/-- Per-user contact endpoints for a delivery channel. -/
structure ChannelData where
  channel : String
  address : String
deriving DecidableEq

/-- An invocation of an underlying client method performed by the user hook,
recorded in order. -/
inductive ClientCall where
  | get (userId : String)
  | update (userId : String) (data : UserPatch)
  | setChannelData (userId : String) (channelData : ChannelData)
deriving DecidableEq

/-- The user hook's local state: cached user snapshot, loading, error
(src/src/index.tsx, the three useState slots of useUser). -/
structure UserHookState where
  user : Option User
  loading : Bool
  error : Option NotiBoostError
deriving DecidableEq

/-- The hook state at the moment a useUser operation invokes its underlying
call: each operation runs `setLoading(true); setError(null)` first. -/
def hookPre (hs : UserHookState) : UserHookState :=
  { hs with loading := true, error := none }

deriving instance DecidableEq for Except

/-- Result of running one useUser operation: final provider state, final hook
state, underlying client calls performed (in order), and the settled result
of the returned promise. -/
structure HookRun where
  provider : ProviderState
  hook : UserHookState
  calls : List ClientCall
  result : Except NotiBoostError Unit
deriving DecidableEq

namespace UseUser

/-- useUser.refresh (src/src/index.tsx lines 152-167): guard on a falsy
userId, set loading true and clear error, await the wrapped getUser, store
the fetched record on success, store the normalized error on failure
(without re-throwing), finally set loading false. The getUser call goes
through handleRequest, so it also updates the provider state. -/
def refresh (userId : String) (getOutcome : Except Thrown User)
    (ps : ProviderState) (hs : UserHookState) : HookRun :=
  if userId = "" then ⟨ps, hs, [], .ok Unit.unit⟩
  else
    match handleRequest ps getOutcome with
    | (ps1, .ok userData) =>
      ⟨ps1, { hookPre hs with user := some userData, loading := false },
        [.get userId], .ok Unit.unit⟩
    | (ps1, .error err) =>
      let nbe := toNotiBoostError (.nbError err)
      ⟨ps1, { hookPre hs with error := some nbe, loading := false },
        [.get userId], .ok Unit.unit⟩

/-- useUser.update (src/src/index.tsx lines 173-189): guard on a falsy
userId, set loading true and clear error, await the wrapped updateUser then
await refresh; on failure store the normalized error and re-throw; finally
set loading false. -/
def update (userId : String) (data : UserPatch)
    (updateOutcome : Except Thrown Value) (getOutcome : Except Thrown User)
    (ps : ProviderState) (hs : UserHookState) : HookRun :=
  if userId = "" then ⟨ps, hs, [], .ok Unit.unit⟩
  else
    match handleRequest ps updateOutcome with
    | (ps1, .error err) =>
      let nbe := toNotiBoostError (.nbError err)
      ⟨ps1, { hookPre hs with error := some nbe, loading := false },
        [.update userId data], .error nbe⟩
    | (ps1, .ok _) =>
      match refresh userId getOutcome ps1 (hookPre hs) with
      | ⟨ps2, hs2, calls2, .ok _⟩ =>
        ⟨ps2, { hs2 with loading := false }, .update userId data :: calls2,
          .ok Unit.unit⟩
      | ⟨ps2, hs2, calls2, .error err2⟩ =>
        let nbe2 := toNotiBoostError (.nbError err2)
        ⟨ps2, { hs2 with error := some nbe2, loading := false },
          .update userId data :: calls2, .error nbe2⟩

/-- useUser.setChannelData (src/src/index.tsx lines 191-207): same shape as
update, invoking the wrapped provider setChannelData instead. -/
def setChannelData (userId : String) (channelData : ChannelData)
    (setOutcome : Except Thrown Value) (getOutcome : Except Thrown User)
    (ps : ProviderState) (hs : UserHookState) : HookRun :=
  if userId = "" then ⟨ps, hs, [], .ok Unit.unit⟩
  else
    match handleRequest ps setOutcome with
    | (ps1, .error err) =>
      let nbe := toNotiBoostError (.nbError err)
      ⟨ps1, { hookPre hs with error := some nbe, loading := false },
        [.setChannelData userId channelData], .error nbe⟩
    | (ps1, .ok _) =>
      match refresh userId getOutcome ps1 (hookPre hs) with
      | ⟨ps2, hs2, calls2, .ok _⟩ =>
        ⟨ps2, { hs2 with loading := false },
          .setChannelData userId channelData :: calls2, .ok Unit.unit⟩
      | ⟨ps2, hs2, calls2, .error err2⟩ =>
        let nbe2 := toNotiBoostError (.nbError err2)
        ⟨ps2, { hs2 with error := some nbe2, loading := false },
          .setChannelData userId channelData :: calls2, .error nbe2⟩

end UseUser

/-- The type of a wrapped provider method as seen through the context. -/
def WrappedOp : Type :=
  Except Thrown Value → ProviderState → ProviderState × Except NotiBoostError Value

/-- The context value the provider publishes: the client, the eight wrapped
methods, and the shared loading/error fields. -/
structure NotiBoostContextType where
  client : NotiBoostClient
  ops : ProviderOp → WrappedOp
  loading : Bool
  error : Option NotiBoostError

/-- useNotiBoost (src/src/index.tsx lines 114-120): read the context; outside
a NotiBoostProvider the context is undefined and the hook throws. `.error`
models the thrown Error's message. -/
def useNotiBoost (ctx : Option NotiBoostContextType) :
    Except String NotiBoostContextType :=
  match ctx with
  | some c => .ok c
  | none => .error "useNotiBoost must be used within NotiBoostProvider"

/-- Return value of useEvent. -/
structure UseEventReturn where
  ingest : WrappedOp
  loading : Bool
  error : Option NotiBoostError

/-- useEvent (src/src/index.tsx lines 128-135): destructures useNotiBoost, so
the same error propagates outside a provider. -/
def useEvent (ctx : Option NotiBoostContextType) : Except String UseEventReturn :=
  match useNotiBoost ctx with
  | .ok c => .ok ⟨c.ops .ingestEvent, c.loading, c.error⟩
  | .error m => .error m

/-- The first step of useUser: destructure useNotiBoost (throwing outside a
provider), then initialise the hook state slots (user null, loading false,
error null). -/
def useUserMount (ctx : Option NotiBoostContextType) (userId : String) :
    Except String UserHookState :=
  match useNotiBoost ctx with
  | .ok _ =>
    let _ := userId
    .ok ⟨none, false, none⟩
  | .error m => .error m

/-! Concrete fixtures used by counterexamples and witnesses. -/

def ps0 : ProviderState := ⟨false, none⟩

def hs0 : UserHookState := ⟨none, false, none⟩

def u0 : User := ⟨"u1", "Ada", "ada@example.com"⟩

def v0 : Value := ⟨"ok"⟩

def d0 : UserPatch := ⟨[("name", "Ada")]⟩

def cd0 : ChannelData := ⟨"email", "ada@example.com"⟩

def props0 : NotiBoostProviderProps :=
  ⟨"key", some "https://api.example.com", some 30000, some 3⟩

/-- C1: for every wrapped provider operation, when the underlying client call
rejects with a value, the stored error is non-null and is exactly the
normalization of that value: the value itself when it is already a
NotiBoostError, otherwise a NotiBoostError with status code 0 carrying the
original Error message, or the fixed fallback message for non-Error thrown
values. -/
theorem providerOp_reject_normalizes {α : Type} (op : ProviderOp)
    (s : ProviderState) (t : Thrown) (e : NotiBoostError) (m p : String) :
    (runProviderOp op (Except.error t : Except Thrown α) s).1.error
        = some (toNotiBoostError t) ∧
    (runProviderOp op (Except.error t : Except Thrown α) s).1.error ≠ none ∧
    toNotiBoostError (.nbError e) = e ∧
    toNotiBoostError (.jsError m) = ⟨m, 0⟩ ∧
    (toNotiBoostError (.jsError m)).code = 0 ∧
    (toNotiBoostError (.nonError p)).code = 0 := by
  refine ⟨?_, ?_, rfl, rfl, rfl, rfl⟩ <;>
    cases op <;> simp [runProviderOp, handleRequest]

/-- C2 counterexample: a failing fetch inside useUser.refresh is stored in
the hook's error state, but the promise returned by refresh resolves rather
than rejects, so this failure of an exposed operation is not re-thrown to
the caller. -/
theorem refresh_failure_not_rethrown :
    (UseUser.refresh "u1" (.error (.jsError "boom")) ps0 hs0).hook.error
        = some ⟨"boom", 0⟩ ∧
    (UseUser.refresh "u1" (.error (.jsError "boom")) ps0 hs0).result
        = .ok Unit.unit := by
  constructor <;> rfl

/-- C2 amended: failures of the eight wrapped provider operations and of the
useUser update and setChannelData mutations are stored as normalized errors
and simultaneously re-thrown to the caller; a failure of the fetch inside
useUser.refresh is stored in the hook state, but refresh itself resolves
normally instead of re-throwing. -/
theorem errors_stored_and_rethrown {α : Type} (op : ProviderOp)
    (s ps : ProviderState) (t : Thrown) (userId : String) (h : userId ≠ "")
    (data : UserPatch) (cd : ChannelData) (og : Except Thrown User)
    (hs : UserHookState) :
    (runProviderOp op (Except.error t : Except Thrown α) s).1.error
        = some (toNotiBoostError t) ∧
    (runProviderOp op (Except.error t : Except Thrown α) s).2
        = .error (toNotiBoostError t) ∧
    (UseUser.update userId data (.error t) og ps hs).hook.error
        = some (toNotiBoostError t) ∧
    (UseUser.update userId data (.error t) og ps hs).result
        = .error (toNotiBoostError t) ∧
    (UseUser.setChannelData userId cd (.error t) og ps hs).hook.error
        = some (toNotiBoostError t) ∧
    (UseUser.setChannelData userId cd (.error t) og ps hs).result
        = .error (toNotiBoostError t) ∧
    (UseUser.refresh userId (.error t) ps hs).hook.error
        = some (toNotiBoostError t) ∧
    (UseUser.refresh userId (.error t) ps hs).result = .ok Unit.unit := by
  refine ⟨?_, ?_, ?_, ?_, ?_, ?_, ?_, ?_⟩ <;>
    first
      | (cases op <;> simp [runProviderOp, handleRequest])
      | simp [UseUser.update, UseUser.setChannelData, UseUser.refresh,
          handleRequest, hookPre, toNotiBoostError, h]

/-- C2 amended, witnessed at a concrete failing operation. -/
theorem errors_stored_and_rethrown_witness :
    ("u1" : String) ≠ "" ∧
    ((runProviderOp .getUser (Except.error (.jsError "boom") : Except Thrown Value)
          ps0).1.error = some (toNotiBoostError (.jsError "boom")) ∧
      (runProviderOp .getUser (Except.error (.jsError "boom") : Except Thrown Value)
          ps0).2 = .error (toNotiBoostError (.jsError "boom")) ∧
      (UseUser.update "u1" d0 (.error (.jsError "boom")) (.ok u0) ps0 hs0).hook.error
          = some (toNotiBoostError (.jsError "boom")) ∧
      (UseUser.update "u1" d0 (.error (.jsError "boom")) (.ok u0) ps0 hs0).result
          = .error (toNotiBoostError (.jsError "boom")) ∧
      (UseUser.setChannelData "u1" cd0 (.error (.jsError "boom")) (.ok u0) ps0
          hs0).hook.error = some (toNotiBoostError (.jsError "boom")) ∧
      (UseUser.setChannelData "u1" cd0 (.error (.jsError "boom")) (.ok u0) ps0
          hs0).result = .error (toNotiBoostError (.jsError "boom")) ∧
      (UseUser.refresh "u1" (.error (.jsError "boom")) ps0 hs0).hook.error
          = some (toNotiBoostError (.jsError "boom")) ∧
      (UseUser.refresh "u1" (.error (.jsError "boom")) ps0 hs0).result
          = .ok Unit.unit) :=
  ⟨by decide, errors_stored_and_rethrown .getUser ps0 ps0 (.jsError "boom") "u1"
    (by decide) d0 cd0 (.ok u0) hs0⟩

/-- C3: every wrapped call runs in a state with loading true and error null
at the moment the underlying client call is invoked, and after the call
settles either way the loading flag is false, for the provider's wrapper and
for each useUser operation with a non-empty userId. -/
theorem loading_contract {α : Type} (op : ProviderOp) (o : Except Thrown α)
    (s ps : ProviderState) (userId : String) (h : userId ≠ "")
    (og : Except Thrown User) (data : UserPatch) (uo : Except Thrown Value)
    (cd : ChannelData) (co : Except Thrown Value) (hs : UserHookState) :
    (requestPre s).loading = true ∧
    (requestPre s).error = none ∧
    (runProviderOp op o s).1.loading = false ∧
    (hookPre hs).loading = true ∧
    (hookPre hs).error = none ∧
    (UseUser.refresh userId og ps hs).hook.loading = false ∧
    (UseUser.update userId data uo og ps hs).hook.loading = false ∧
    (UseUser.setChannelData userId cd co og ps hs).hook.loading = false := by
  refine ⟨rfl, rfl, ?_, rfl, rfl, ?_, ?_, ?_⟩
  · cases op <;> cases o <;> simp [runProviderOp, handleRequest]
  · cases og <;> simp [UseUser.refresh, handleRequest, hookPre, h]
  · cases uo <;> cases og <;>
      simp [UseUser.update, UseUser.refresh, handleRequest, hookPre, h]
  · cases co <;> cases og <;>
      simp [UseUser.setChannelData, UseUser.refresh, handleRequest, hookPre, h]

/-- C3, witnessed at a concrete rejecting call. -/
theorem loading_contract_witness :
    ("u1" : String) ≠ "" ∧
    ((requestPre ps0).loading = true ∧
      (requestPre ps0).error = none ∧
      (runProviderOp .ingestEvent (Except.error (.jsError "boom") : Except Thrown Value)
          ps0).1.loading = false ∧
      (hookPre hs0).loading = true ∧
      (hookPre hs0).error = none ∧
      (UseUser.refresh "u1" (.ok u0) ps0 hs0).hook.loading = false ∧
      (UseUser.update "u1" d0 (.ok v0) (.ok u0) ps0 hs0).hook.loading = false ∧
      (UseUser.setChannelData "u1" cd0 (.ok v0) (.ok u0) ps0 hs0).hook.loading
          = false) :=
  ⟨by decide, loading_contract .ingestEvent (.error (.jsError "boom")) ps0 ps0
    "u1" (by decide) (.ok u0) d0 (.ok v0) cd0 (.ok v0) hs0⟩

/-- C4: after a successful update or channel-data set through useUser, the
hook performs exactly one user fetch, placed right after the mutating call,
and when that fetch succeeds the hook's user snapshot equals the newly
fetched record, whatever the pre-update snapshot was. -/
theorem mutation_refetches_once (userId : String) (h : userId ≠ "")
    (data : UserPatch) (cd : ChannelData) (v w : Value) (u : User)
    (og : Except Thrown User) (ps : ProviderState) (hs : UserHookState) :
    (UseUser.update userId data (.ok v) og ps hs).calls
        = [.update userId data, .get userId] ∧
    (UseUser.update userId data (.ok v) (.ok u) ps hs).hook.user = some u ∧
    (UseUser.setChannelData userId cd (.ok w) og ps hs).calls
        = [.setChannelData userId cd, .get userId] ∧
    (UseUser.setChannelData userId cd (.ok w) (.ok u) ps hs).hook.user
        = some u := by
  refine ⟨?_, ?_, ?_, ?_⟩ <;> cases og <;>
    simp [UseUser.update, UseUser.setChannelData, UseUser.refresh,
      handleRequest, hookPre, h]

/-- C4, witnessed at a concrete successful mutation. -/
theorem mutation_refetches_once_witness :
    ("u1" : String) ≠ "" ∧
    ((UseUser.update "u1" d0 (.ok v0) (.ok u0) ps0 hs0).calls
        = [.update "u1" d0, .get "u1"] ∧
      (UseUser.update "u1" d0 (.ok v0) (.ok u0) ps0 hs0).hook.user = some u0 ∧
      (UseUser.setChannelData "u1" cd0 (.ok v0) (.ok u0) ps0 hs0).calls
        = [.setChannelData "u1" cd0, .get "u1"] ∧
      (UseUser.setChannelData "u1" cd0 (.ok v0) (.ok u0) ps0 hs0).hook.user
        = some u0) :=
  ⟨by decide, mutation_refetches_once "u1" (by decide) d0 cd0 v0 v0 u0
    (.ok u0) ps0 hs0⟩

/-- C5: when the underlying client call succeeds, every wrapped provider
operation returns exactly the client's value and leaves the error state
null. -/
theorem providerOp_success {α : Type} (op : ProviderOp) (v : α)
    (s : ProviderState) :
    (runProviderOp op (Except.ok v : Except Thrown α) s).2 = .ok v ∧
    (runProviderOp op (Except.ok v : Except Thrown α) s).1.error = none := by
  cases op <;> simp [runProviderOp, handleRequest, requestPre]

/-- C6: outside a NotiBoostProvider the context is undefined, and
useNotiBoost, useEvent and useUser all fail immediately with the same
descriptive (non-empty) error message rather than returning a value. -/
theorem hooks_outside_provider_fail (userId : String) :
    useNotiBoost none
        = .error "useNotiBoost must be used within NotiBoostProvider" ∧
    useEvent none
        = .error "useNotiBoost must be used within NotiBoostProvider" ∧
    useUserMount none userId
        = .error "useNotiBoost must be used within NotiBoostProvider" ∧
    "useNotiBoost must be used within NotiBoostProvider" ≠ "" :=
  ⟨rfl, rfl, rfl, by decide⟩

/-- Rendering the provider with an already-filled state slot never runs the
client constructor: every render returns the stored instance. -/
theorem renderClients_filled (p : NotiBoostProviderProps) (c : NotiBoostClient) :
    ∀ n, renderClients p n (some c) = (List.replicate n c, 0) := by
  intro n
  induction n with
  | zero => rfl
  | succ m ih => simp [renderClients, useStateLazy, ih, List.replicate]

/-- C7: across any positive number of renders of a mounted provider the
client constructor runs exactly once, every render sees that same single
instance, and the instance's configuration fields are the provider props
passed through unchanged. -/
theorem provider_single_client (p : NotiBoostProviderProps) (n : Nat)
    (h : 1 ≤ n) :
    (renderClients p n none).1 = List.replicate n (makeClient p) ∧
    (renderClients p n none).2 = 1 ∧
    (makeClient p).config.apiKey = p.apiKey ∧
    (makeClient p).config.baseURL = p.baseURL ∧
    (makeClient p).config.timeout = p.timeout ∧
    (makeClient p).config.retries = p.retries := by
  obtain ⟨m, rfl⟩ : ∃ m, n = m + 1 := ⟨n - 1, by omega⟩
  refine ⟨?_, ?_, rfl, rfl, rfl, rfl⟩ <;>
    simp [renderClients, useStateLazy, renderClients_filled, List.replicate]

/-- C7, witnessed at two renders of a concrete configuration. -/
theorem provider_single_client_witness :
    1 ≤ 2 ∧
    ((renderClients props0 2 none).1 = List.replicate 2 (makeClient props0) ∧
      (renderClients props0 2 none).2 = 1 ∧
      (makeClient props0).config.apiKey = props0.apiKey ∧
      (makeClient props0).config.baseURL = props0.baseURL ∧
      (makeClient props0).config.timeout = props0.timeout ∧
      (makeClient props0).config.retries = props0.retries) :=
  ⟨by decide, provider_single_client props0 2 (by decide)⟩

/-- C8: every successful fetch performed by useUser replaces the cached user
snapshot wholesale with the newly fetched record, independently of the
previous snapshot (so no field of the old record survives). -/
theorem refresh_replaces_snapshot (userId : String) (h : userId ≠ "")
    (u : User) (ps : ProviderState) (hs hs2 : UserHookState) :
    (UseUser.refresh userId (.ok u) ps hs).hook.user = some u ∧
    (UseUser.refresh userId (.ok u) ps hs).hook.user
        = (UseUser.refresh userId (.ok u) ps hs2).hook.user := by
  constructor <;> simp [UseUser.refresh, handleRequest, hookPre, h]

/-- C8, witnessed at a concrete fetch over a differing cached snapshot. -/
theorem refresh_replaces_snapshot_witness :
    ("u1" : String) ≠ "" ∧
    ((UseUser.refresh "u1" (.ok u0) ps0 ⟨some ⟨"old", "Old", "old@x"⟩, false, none⟩).hook.user
        = some u0 ∧
      (UseUser.refresh "u1" (.ok u0) ps0 ⟨some ⟨"old", "Old", "old@x"⟩, false, none⟩).hook.user
        = (UseUser.refresh "u1" (.ok u0) ps0 hs0).hook.user) :=
  ⟨by decide, refresh_replaces_snapshot "u1" (by decide) u0 ps0
    ⟨some ⟨"old", "Old", "old@x"⟩, false, none⟩ hs0⟩

/-- C9: with an empty (falsy) userId each useUser operation returns
immediately: it resolves, performs no underlying client call, and leaves the
provider and hook state untouched. -/
theorem empty_userId_noop (og : Except Thrown User) (data : UserPatch)
    (uo : Except Thrown Value) (cd : ChannelData) (co : Except Thrown Value)
    (ps : ProviderState) (hs : UserHookState) :
    UseUser.refresh "" og ps hs = ⟨ps, hs, [], .ok Unit.unit⟩ ∧
    UseUser.update "" data uo og ps hs = ⟨ps, hs, [], .ok Unit.unit⟩ ∧
    UseUser.setChannelData "" cd co og ps hs = ⟨ps, hs, [], .ok Unit.unit⟩ := by
  exact ⟨rfl, rfl, rfl⟩

/-- C10: useUser.refresh always resolves, storing any fetch failure in the
hook's error state instead of rejecting; consequently update and
setChannelData resolve successfully when the mutation succeeded but the
post-mutation re-fetch failed, with the failure visible only through the
stored error. -/
theorem refresh_never_rejects (userId userId2 : String) (h : userId2 ≠ "")
    (og : Except Thrown User) (t : Thrown) (v w : Value) (data : UserPatch)
    (cd : ChannelData) (ps : ProviderState) (hs : UserHookState) :
    (UseUser.refresh userId og ps hs).result = .ok Unit.unit ∧
    (UseUser.refresh userId2 (.error t) ps hs).hook.error
        = some (toNotiBoostError t) ∧
    (UseUser.update userId2 data (.ok v) (.error t) ps hs).result
        = .ok Unit.unit ∧
    (UseUser.update userId2 data (.ok v) (.error t) ps hs).hook.error
        = some (toNotiBoostError t) ∧
    (UseUser.setChannelData userId2 cd (.ok w) (.error t) ps hs).result
        = .ok Unit.unit ∧
    (UseUser.setChannelData userId2 cd (.ok w) (.error t) ps hs).hook.error
        = some (toNotiBoostError t) := by
  refine ⟨?_, ?_, ?_, ?_, ?_, ?_⟩
  · by_cases huid : userId = "" <;> cases og <;>
      simp [UseUser.refresh, handleRequest, hookPre, huid]
  all_goals
    simp [UseUser.update, UseUser.setChannelData, UseUser.refresh,
      handleRequest, hookPre, toNotiBoostError, h]

/-- C10, witnessed at a concrete failing re-fetch. -/
theorem refresh_never_rejects_witness :
    ("u1" : String) ≠ "" ∧
    ((UseUser.refresh "u2" (.ok u0) ps0 hs0).result = .ok Unit.unit ∧
      (UseUser.refresh "u1" (.error (.jsError "boom")) ps0 hs0).hook.error
          = some (toNotiBoostError (.jsError "boom")) ∧
      (UseUser.update "u1" d0 (.ok v0) (.error (.jsError "boom")) ps0 hs0).result
          = .ok Unit.unit ∧
      (UseUser.update "u1" d0 (.ok v0) (.error (.jsError "boom")) ps0 hs0).hook.error
          = some (toNotiBoostError (.jsError "boom")) ∧
      (UseUser.setChannelData "u1" cd0 (.ok v0) (.error (.jsError "boom")) ps0
          hs0).result = .ok Unit.unit ∧
      (UseUser.setChannelData "u1" cd0 (.ok v0) (.error (.jsError "boom")) ps0
          hs0).hook.error = some (toNotiBoostError (.jsError "boom"))) :=
  ⟨by decide, refresh_never_rejects "u2" "u1" (by decide) (.ok u0)
    (.jsError "boom") v0 v0 d0 cd0 ps0 hs0⟩

end NotiBoost
